import Mathlib

/-!
Verification development for the wyd-sandboxing repository.

The Python source is shallowly embedded: each relevant method of
SandboxManager (src/app/utils/sandbox_manager.py), WindowsSandbox
(src/app/utils/windows_sandbox.py), BuiltInSandbox
(src/app/utils/built_in_sandbox.py) and GameLauncherService
(src/app/services/game_launcher_service.py) becomes a pure Lean function
over an explicit state, with OS interactions (filesystem, process table,
subprocess results, randomness, clock) supplied as explicit environment
values or oracles.  Python dictionaries keyed by strings become
association lists with the helpers below.

The file is organised as: all definitions first, then all theorems.
-/

namespace WydSandbox

/-! ## Association-list maps (Python dict with string keys) -/

def mapFind? {α : Type} (k : String) : List (String × α) → Option α
  | [] => none
  | (k', v) :: rest => if k' = k then some v else mapFind? k rest

/-- Python dict assignment d[k] = v: the binding for k is replaced. -/
def mapInsert {α : Type} (k : String) (v : α) (l : List (String × α)) :
    List (String × α) :=
  (k, v) :: l.filter (fun p => p.1 != k)

/-- Python del d[k]. -/
def mapErase {α : Type} (k : String) (l : List (String × α)) :
    List (String × α) :=
  l.filter (fun p => p.1 != k)

def mapKeys {α : Type} (l : List (String × α)) : List String :=
  l.map Prod.fst

/-! ## Substring search (Python: needle in haystack) -/

def occursIn (needle : List Char) : List Char → Bool
  | [] => needle.isEmpty
  | c :: rest => needle.isPrefixOf (c :: rest) || occursIn needle rest

/-- Python: needle in hay (for strings). -/
def containsSubstr (needle hay : String) : Bool :=
  occursIn needle.data hay.data

/-! ## SandboxManager backend discovery

Embeds SandboxManager.__init__ together with _check_available_sandboxes,
_is_sandboxie_available, _is_windows_sandbox_available,
_is_virtualbox_available (src/app/utils/sandbox_manager.py lines 24-127)
and WindowsSandbox.is_available (src/app/utils/windows_sandbox.py lines
32-59).  The OS is an explicit environment: which paths exist on disk,
the stdout of the PowerShell Get-WindowsOptionalFeature query, and
whether that subprocess call raises. -/

structure SysEnv where
  /-- config.get("sandboxie_path", "") -/
  sandboxiePathCfg : String
  /-- config.get("virtualbox_path", "") -/
  virtualboxPathCfg : String
  /-- the set of paths for which os.path.exists returns True -/
  existingPaths : List String
  /-- stdout of the Get-WindowsOptionalFeature PowerShell query -/
  psStdout : String
  /-- whether running the PowerShell query raises an exception -/
  psRaises : Bool
deriving DecidableEq

def pathExists (env : SysEnv) (p : String) : Bool :=
  env.existingPaths.contains p

def sandboxieCommonPaths : List String :=
  ["C:\\Program Files\\Sandboxie\\Start.exe",
   "C:\\Program Files\\Sandboxie-Plus\\Start.exe",
   "C:\\Program Files (x86)\\Sandboxie\\Start.exe",
   "C:\\Program Files (x86)\\Sandboxie-Plus\\Start.exe"]

def windowsSandboxExePath : String := "C:\\Windows\\System32\\WindowsSandbox.exe"

/-- SandboxManager._is_sandboxie_available: configured path truthy and
present, or one of the common installation paths present. -/
def isSandboxieAvailable (env : SysEnv) : Bool :=
  (env.sandboxiePathCfg != "" && pathExists env env.sandboxiePathCfg)
  || sandboxieCommonPaths.any (pathExists env)

/-- The value left in sandbox_executables["sandboxie"] after
_is_sandboxie_available ran (it stores the first common path found). -/
def resolvedSandboxiePath (env : SysEnv) : String :=
  if env.sandboxiePathCfg != "" && pathExists env env.sandboxiePathCfg then
    env.sandboxiePathCfg
  else
    match sandboxieCommonPaths.find? (pathExists env) with
    | some p => p
    | none => env.sandboxiePathCfg

/-- SandboxManager._is_windows_sandbox_available: runs the PowerShell
feature query and tests the substring "Enabled" in its stdout.  It does
NOT test for the WindowsSandbox.exe binary. -/
def managerWSFeatureCheck (env : SysEnv) : Bool :=
  !env.psRaises && containsSubstr "Enabled" env.psStdout

/-- WindowsSandbox.is_available: the host binary must exist on disk AND
the PowerShell stdout must contain "State : Enabled". -/
def wsBackendIsAvailable (env : SysEnv) : Bool :=
  pathExists env windowsSandboxExePath
    && (!env.psRaises && containsSubstr "State : Enabled" env.psStdout)

/-- The Windows Sandbox OS optional feature reporting enabled, as the
claims phrase it (the canonical "State : Enabled" marker in the query
output, with the query succeeding). -/
def wsFeatureEnabled (env : SysEnv) : Bool :=
  !env.psRaises && containsSubstr "State : Enabled" env.psStdout

/-- SandboxManager._is_virtualbox_available. -/
def isVirtualboxAvailable (env : SysEnv) : Bool :=
  env.virtualboxPathCfg != "" && pathExists env env.virtualboxPathCfg

/-- The available_sandboxes list as built by SandboxManager.__init__:
first _check_available_sandboxes fills it (sandboxie, windows_sandbox by
the feature-only probe, virtualbox), then "windows_sandbox" is appended
again when WindowsSandbox.is_available() holds, then "built_in" is
always appended. -/
def availableSandboxes (env : SysEnv) : List String :=
  ((if isSandboxieAvailable env then ["sandboxie"] else [])
    ++ (if managerWSFeatureCheck env then ["windows_sandbox"] else [])
    ++ (if isVirtualboxAvailable env then ["virtualbox"] else []))
  ++ (if wsBackendIsAvailable env then ["windows_sandbox"] else [])
  ++ ["built_in"]

/-- An environment where the Windows Sandbox OS optional feature reports
enabled but the host binary WindowsSandbox.exe is absent from disk. -/
def envFeatureNoBinary : SysEnv :=
  { sandboxiePathCfg := "", virtualboxPathCfg := "", existingPaths := [],
    psStdout := "State : Enabled", psRaises := false }

/-! ## BuiltInSandbox

Embeds BuiltInSandbox (src/app/utils/built_in_sandbox.py): create_sandbox
(47-81), launch_in_sandbox (83-300), terminate_sandbox (319-364),
check_sandbox_health (366-398).  Randomness (random.choices, uuid.uuid4,
random.randint) is an oracle rng : Nat -> String consumed one draw per
generated field, with a draw counter kept in the state; the concrete
character-level construction of each random string is abstracted into the
draw.  The filesystem is the list of existing directory paths; the files
written inside the per-sandbox temp directory are represented by the
directories that contain them, which is what the temp-dir claims
observe.  The process found by the psutil scan or window-title fallback
after the settle delay is an explicit parameter (none means the launcher
batch process itself is tracked, which the source treats as success). -/

structure Identity where
  hwid : String
  mac : String
  computerName : String
  ipAddress : String
  diskSerial : String
  biosUuid : String
  motherboardSerial : String
  cpuId : String
  userName : String
  sandboxId : String
  machineGuid : String
  productId : String
deriving DecidableEq

structure BIProcInfo where
  pid : Nat
  executable : String
  startTime : Nat
  inSandbox : Bool
  sandboxName : String
  sandboxType : String
  identity : Identity
  windowTitle : String
deriving DecidableEq

structure BISandboxRec where
  id : String
  running : Bool
  processes : List BIProcInfo
  hwid : String
  mac : String
  computerName : String
  creationTime : Nat
  tempDir : Option String
  identity : Option Identity
deriving DecidableEq

structure BIState where
  sandboxes : List (String × BISandboxRec)
  fs : List String
  rngCtr : Nat
deriving DecidableEq

structure BIEnv where
  rng : Nat → String

/-- BuiltInSandbox.create_sandbox: draws sandbox_id, hw_id, mac_address,
computer_name and stores a fresh record; always returns True (the
exception path is not reachable in the model). -/
def biCreateSandbox (env : BIEnv) (s : BIState) (name : String) (now : Nat) :
    Bool × BIState :=
  let sid := env.rng s.rngCtr
  let hw := env.rng (s.rngCtr + 1)
  let mac := env.rng (s.rngCtr + 2)
  let cn := env.rng (s.rngCtr + 3)
  (true,
   { s with
     sandboxes := mapInsert name
       { id := sid, running := false, processes := [], hwid := hw, mac := mac,
         computerName := cn, creationTime := now, tempDir := none,
         identity := none } s.sandboxes,
     rngCtr := s.rngCtr + 4 })

/-- The first lines of launch_in_sandbox: create the sandbox when the
name is not yet known. -/
def ensureSandbox (env : BIEnv) (s : BIState) (name : String) (now : Nat) :
    BIState :=
  if (mapFind? name s.sandboxes).isSome then s
  else (biCreateSandbox env s name now).2

/-- The identity_data dictionary built inside launch_in_sandbox: hwid,
mac and computer_name are copied from the stored sandbox record, all the
extended fields are fresh draws on every call. -/
def extendIdentity (env : BIEnv) (ctr : Nat) (r : BISandboxRec) : Identity :=
  { hwid := r.hwid, mac := r.mac, computerName := r.computerName,
    ipAddress := env.rng ctr, diskSerial := env.rng (ctr + 1),
    biosUuid := env.rng (ctr + 2), motherboardSerial := env.rng (ctr + 3),
    cpuId := env.rng (ctr + 4), userName := env.rng (ctr + 5),
    sandboxId := r.id, machineGuid := env.rng (ctr + 6),
    productId := env.rng (ctr + 7) }

def tempDirRoot : String := "C:\\Temp"

def biJunkProcInfo : BIProcInfo :=
  { pid := 0, executable := "", startTime := 0, inSandbox := true,
    sandboxName := "", sandboxType := "built_in",
    identity :=
      { hwid := "", mac := "", computerName := "", ipAddress := "",
        diskSerial := "", biosUuid := "", motherboardSerial := "",
        cpuId := "", userName := "", sandboxId := "", machineGuid := "",
        productId := "" },
    windowTitle := "" }

/-- The body of launch_in_sandbox once the sandbox record is known:
create the temp directory and the private user-profile tree, build
identity_data, spawn the batch file, resolve the game process (parameter
foundGamePid, batch pid as fallback), update the record and return the
process info. -/
def biLaunchBody (env : BIEnv) (s : BIState) (name exe : String)
    (now batchPid : Nat) (foundGamePid : Option Nat) (r : BISandboxRec) :
    BIProcInfo × BIState :=
  let tempDir := tempDirRoot ++ "\\wydbot_identity_" ++ name ++ "_" ++ r.id
  let ident := extendIdentity env s.rngCtr r
  let userDir := tempDir ++ "\\Users\\" ++ ident.userName
  let fs1 := tempDir :: userDir :: (userDir ++ "\\AppData\\Roaming") ::
    (userDir ++ "\\AppData\\Local") :: (userDir ++ "\\AppData\\Local\\Temp") ::
    s.fs
  let windowTitle := "WydBot_" ++ name ++ "_" ++ r.id.take 8
  let pid := foundGamePid.getD batchPid
  let pinfo : BIProcInfo :=
    { pid := pid, executable := exe, startTime := now, inSandbox := true,
      sandboxName := name, sandboxType := "built_in", identity := ident,
      windowTitle := windowTitle }
  let r' := { r with
    running := true, tempDir := some tempDir,
    identity := some ident, processes := r.processes ++ [pinfo] }
  (pinfo,
   { sandboxes := mapInsert name r' s.sandboxes, fs := fs1,
     rngCtr := s.rngCtr + 8 })

/-- BuiltInSandbox.launch_in_sandbox.  The OS-exception path (which
returns a success:False dictionary) is not modelled because no modelled
operation fails. -/
def biLaunchInSandbox (env : BIEnv) (s : BIState) (name exe : String)
    (_args : List String) (now batchPid : Nat) (foundGamePid : Option Nat) :
    BIProcInfo × BIState :=
  match mapFind? name (ensureSandbox env s name now).sandboxes with
  | none => (biJunkProcInfo, ensureSandbox env s name now)
  | some r =>
    biLaunchBody env (ensureSandbox env s name now) name exe now batchPid
      foundGamePid r

/-- shutil.rmtree(d, ignore_errors=True): the directory and everything
under it disappear from the filesystem. -/
def removeTree (d : String) (fs : List String) : List String :=
  fs.filter (fun p => !(d.data.isPrefixOf p.data))

/-- BuiltInSandbox.terminate_sandbox: unknown name returns False;
otherwise every tracked process is terminated (graceful, bounded wait,
then kill, errors swallowed; the OS process table is not part of the
state), the temp directory tree is deleted and the record dropped. -/
def biTerminateSandbox (s : BIState) (name : String) : Bool × BIState :=
  match mapFind? name s.sandboxes with
  | none => (false, s)
  | some r =>
    let fs' := match r.tempDir with
      | some d => removeTree d s.fs
      | none => s.fs
    (true, { s with sandboxes := mapErase name s.sandboxes, fs := fs' })

structure BIHealth where
  status : String
  processCount : Option Nat
  networkIsolated : Option Bool
  identitySpoofed : Option Bool
  uptime : Option Nat
deriving DecidableEq

/-- BuiltInSandbox.check_sandbox_health; procAlive is the liveness of a
pid in the OS process table (process.poll() is None). -/
def biCheckHealth (s : BIState) (name : String) (procAlive : Nat → Bool)
    (now : Nat) : BIHealth :=
  match mapFind? name s.sandboxes with
  | none =>
    { status := "not_found", processCount := none, networkIsolated := none,
      identitySpoofed := none, uptime := none }
  | some r =>
    let runningProcs := r.processes.filter (fun p => procAlive p.pid)
    { status := if runningProcs.isEmpty then "stopped" else "running",
      processCount := some runningProcs.length,
      networkIsolated := some false, identitySpoofed := some true,
      uptime := some (now - r.creationTime) }

/-- The temp directory recorded for a named sandbox, if any. -/
def tempDirOf (s : BIState) (name : String) : Option String :=
  (mapFind? name s.sandboxes).bind (fun r => r.tempDir)

/-- A deterministic randomness oracle for concrete runs. -/
def rngSeq : Nat → String := fun n => "r" ++ toString n

def biEnvSeq : BIEnv := { rng := rngSeq }

def biEmptyState : BIState := { sandboxes := [], fs := [], rngCtr := 0 }

/-- Two consecutive launches under the same sandbox name. -/
def c3FirstLaunch : BIProcInfo × BIState :=
  biLaunchInSandbox biEnvSeq biEmptyState "box" "C:\\game.exe" [] 100 11 none

def c3SecondLaunch : BIProcInfo × BIState :=
  biLaunchInSandbox biEnvSeq c3FirstLaunch.2 "box" "C:\\game.exe" [] 105 12 none

/-- A concrete state holding one launched sandbox named wit. -/
def c7WitnessState : BIState :=
  (biLaunchInSandbox biEnvSeq biEmptyState "wit" "C:\\g.exe" [] 5 3 none).2

/-! ## GameLauncherService

Embeds GameLauncherService (src/app/services/game_launcher_service.py):
launch_game (80-124), terminate_game (126-217), _update_running_games
(252-354), the monitor removal threads, get_running_games (241-250) and
launch_game_in_sandbox (377-459).  The values stored in
self.running_games have three runtime shapes in the source: a raw
subprocess.Popen object (plain launches), a legacy boolean, or a
dictionary; GameRecord mirrors the three shapes.  Process behaviour
(poll results, whether terminate and kill succeed or time out) comes
from handle flags and a monitor environment. -/

inductive PKind
  | popen
  | psProc
deriving DecidableEq

structure PHandle where
  pid : Nat
  kind : PKind
  /-- Popen.terminate() raises an OS error (uncaught in terminate_game) -/
  terminateRaises : Bool
  /-- the process is still alive after terminate(): wait(timeout) times out -/
  surviveTerminate : Bool
  /-- the process is still alive after kill() -/
  surviveKill : Bool
  /-- kill() raises -/
  killRaises : Bool
deriving DecidableEq

structure InstanceRec where
  gameId : String
  sandbox : Option String
  sandboxType : Option String
  startTime : Nat
  inSandbox : Bool
  terminated : Bool
  endTime : Option Nat
  process : Option PHandle
  pid : Option Nat
  processInfoPending : Bool
deriving DecidableEq

inductive GameRecord
  /-- running_games[game_id] = process (a raw Popen), stored by launch_game -/
  | rawProc (h : PHandle)
  /-- legacy boolean entry -/
  | boolFlag (b : Bool)
  /-- dictionary entry, stored by the sandbox and network-wrapper launches -/
  | info (r : InstanceRec)
deriving DecidableEq

structure GLState where
  games : List (String × String)
  runningGames : List (String × GameRecord)
  /-- delayed removals scheduled by remove_after_delay threads:
  instance_id paired with the absolute time the 2s sleep elapses -/
  pendingRemovals : List (String × Nat)
  /-- log of executables actually spawned by subprocess.Popen -/
  spawnLog : List String
deriving DecidableEq

structure MonEnv where
  /-- pid is alive in the OS process table -/
  alive : Nat → Bool
  /-- pid has zombie status -/
  zombie : Nat → Bool
  /-- psutil.process_iter lookup: some pid of a process with this
  (lowercased) executable name -/
  procWithName : String → Option Nat
  /-- sandbox_manager.check_sandbox_health(name).status == "running" -/
  sandboxRunning : String → Bool

def pollIntervalSecs : Nat := 1

def graceDelaySecs : Nat := 2

def basenameLower (p : String) : String :=
  ((p.splitOn "\\").getLastD p).toLower

/-- The liveness check of _update_running_games lines 278-304: process
handle poll (psutil: is_running and not zombie; Popen: poll() is None),
falling back to a pid lookup. -/
def recIsRunning (env : MonEnv) (r : InstanceRec) : Bool :=
  match r.process with
  | some h =>
    match h.kind with
    | .psProc => env.alive h.pid && !(env.zombie h.pid)
    | .popen => env.alive h.pid
  | none =>
    match r.pid with
    | some p => env.alive p && !(env.zombie p)
    | none => false

/-- Lines 306-333: for sandboxed records that look dead, attempt
rediscovery (built_in: scan the process table for the executable name
and adopt that pid; other backends: consult sandbox health). -/
def updateRecord (env : MonEnv) (games : List (String × String)) (r : InstanceRec) :
    InstanceRec × Bool :=
  let run1 := recIsRunning env r
  if !run1 && r.inSandbox && r.sandbox.isSome then
    if r.sandboxType = some "built_in" then
      match mapFind? r.gameId games with
      | some path =>
        match env.procWithName (basenameLower path) with
        | some p =>
          ({ r with
             process := some
               { pid := p, kind := .psProc, terminateRaises := false,
                 surviveTerminate := false, surviveKill := false,
                 killRaises := false },
             pid := some p }, true)
        | none => (r, false)
      | none => (r, false)
    else
      match r.sandbox with
      | some sb => (r, env.sandboxRunning sb)
      | none => (r, false)
  else (r, run1)

/-- One pass of _update_running_games over the entries.  The very first
statement of the per-instance body, game_info.get("terminated", False),
raises AttributeError when the stored value is a raw Popen or a bool;
the exception is caught by the handler at the end of the function, which
logs and returns, leaving this entry and all later entries untouched.
Returns the new entries plus the scheduled delayed removals. -/
def updateLoop (env : MonEnv) (games : List (String × String)) (now : Nat) :
    List (String × GameRecord) → List (String × GameRecord) × List (String × Nat)
  | [] => ([], [])
  | (iid, g) :: rest =>
    match g with
    | .rawProc _ => ((iid, g) :: rest, [])
    | .boolFlag _ => ((iid, g) :: rest, [])
    | .info r =>
      if r.terminated then
        let (l, p) := updateLoop env games now rest
        ((iid, g) :: l, p)
      else
        let (r', run) := updateRecord env games r
        if run then
          let (l, p) := updateLoop env games now rest
          ((iid, .info r') :: l, p)
        else
          let r'' := { r' with terminated := true, endTime := some now }
          let (l, p) := updateLoop env games now rest
          ((iid, .info r'') :: l, (iid, now + graceDelaySecs) :: p)

def updateRunningGames (env : MonEnv) (s : GLState) (now : Nat) : GLState :=
  let (l, p) := updateLoop env s.games now s.runningGames
  { s with runningGames := l, pendingRemovals := s.pendingRemovals ++ p }

/-- The remove_after_delay threads whose 2-second sleep has elapsed by
time t delete their instance (if still present). -/
def fireDueRemovals (s : GLState) (t : Nat) : GLState :=
  let due := s.pendingRemovals.filter (fun q => decide (q.2 ≤ t))
  { s with
    runningGames := s.runningGames.filter
      (fun e => !(due.any (fun q => q.1 == e.1))),
    pendingRemovals := s.pendingRemovals.filter (fun q => !(decide (q.2 ≤ t))) }

/-- get_running_games: update, then list the keys of running_games. -/
def getRunningGames (env : MonEnv) (s : GLState) (now : Nat) :
    List String × GLState :=
  let s' := updateRunningGames env s now
  (mapKeys s'.runningGames, s')

/-- GameLauncherService.terminate_game.  For dictionary records, the
source attempts graceful-then-forced termination, but the local
terminated flag it computes is never consulted afterwards: the record is
unconditionally marked terminated, deleted from running_games, and True
is returned.  The only way to reach the handler that returns False (for
a dictionary record) is an exception escaping the attempts, which for
the enumerated psutil exceptions cannot happen; the model exposes the
one uncaught spot, Popen.terminate() itself raising.  A raw Popen value
makes the expression "process" in game_info raise TypeError, which the
handler converts to False with the record left in place; a bool record
returns False at the isinstance check. -/
def terminateGame (s : GLState) (iid : String) (now : Nat) : Bool × GLState :=
  match mapFind? iid s.runningGames with
  | none => (false, s)
  | some (.boolFlag _) => (false, s)
  | some (.rawProc _) => (false, s)
  | some (.info r) =>
    let popenTerminateRaises :=
      match r.process with
      | some h => h.kind == PKind.popen && h.terminateRaises
      | none => false
    if popenTerminateRaises then (false, s)
    else
      let _r' := { r with terminated := true, endTime := some now }
      (true, { s with runningGames := mapErase iid s.runningGames })

/-- GameLauncherService.launch_game.  spawnOk is whether subprocess.Popen
succeeds; h is the handle of the spawned process. -/
def launchGame (s : GLState) (gid : String) (_args : List String)
    (spawnOk : Bool) (h : PHandle) : Bool × GLState :=
  match mapFind? gid s.games with
  | none => (false, s)
  | some path =>
    if (mapFind? gid s.runningGames).isSome then (false, s)
    else if spawnOk then
      (true, { s with
        runningGames := mapInsert gid (.rawProc h) s.runningGames,
        spawnLog := s.spawnLog ++ [path] })
    else (false, s)

/-! ## SandboxManager.launch_in_sandbox and the Python result values -/

/-- The runtime shape of SandboxManager.launch_in_sandbox results: a
plain boolean, or a dictionary whose success key may be absent. -/
inductive PyVal
  | vbool (b : Bool)
  | vdict (success : Option Bool) (proc : Option PHandle) (pid : Option Nat)
      (error : Option String)
deriving DecidableEq

/-- Python truthiness of a result value (the dictionaries the backends
build are never empty, hence always truthy). -/
def pyTruthy : PyVal → Bool
  | .vbool b => b
  | .vdict _ _ _ _ => true

/-- A failed launch result: False, or a dict whose success is False. -/
def pyIsFailure : PyVal → Bool
  | .vbool b => !b
  | .vdict s _ _ _ => s == some false

def pyIsDict : PyVal → Bool
  | .vbool _ => false
  | .vdict _ _ _ _ => true

/-- Line 394: the per-launch instance id. -/
def mintInstanceId (gameId : String) (now : Nat) (uuidHex : String) : String :=
  gameId ++ "_" ++ toString now ++ "_" ++ uuidHex.take 8

/-- GameLauncherService.launch_game_in_sandbox, with the value returned
by sandbox_manager.launch_in_sandbox supplied as the parameter result.
There is no duplicate-launch guard: a fresh instance id is minted
unconditionally. -/
def launchGameInSandbox (s : GLState) (gid stype : String)
    (_args : List String) (now : Nat) (uuidHex : String) (result : PyVal) :
    Bool × GLState :=
  match mapFind? gid s.games with
  | none => (false, s)
  | some _ =>
    let iid := mintInstanceId gid now uuidHex
    let sbName := gid ++ "_" ++ toString now
    if pyTruthy result then
      match result with
      | .vdict success proc pid _ =>
        if success == some false then (false, s)
        else
          (true, { s with
            runningGames := mapInsert iid (.info
              { gameId := gid, sandbox := some sbName,
                sandboxType := some stype, startTime := now,
                inSandbox := true, terminated := false, endTime := none,
                process := proc, pid := pid, processInfoPending := false })
              s.runningGames })
      | .vbool _ =>
        (true, { s with
          runningGames := mapInsert iid (.info
            { gameId := gid, sandbox := some sbName,
              sandboxType := some stype, startTime := now,
              inSandbox := true, terminated := false, endTime := none,
              process := none, pid := none, processInfoPending := true })
            s.runningGames })
    else (false, s)

/-! ## SandboxManager.launch_in_sandbox (manager layer, claims C5 and C9) -/

structure MgrSandboxInfo where
  stype : String
  executable : String
  creationTime : Option Nat
  pid : Option Nat
  startTime : Option Nat
deriving DecidableEq

structure MgrState where
  availableSandboxes : List String
  sandboxes : List (String × MgrSandboxInfo)
  /-- sandbox_executables["sandboxie"] as left by availability checking -/
  sandboxiePath : String
deriving DecidableEq

/-- Backend outcomes the manager observes during one launch call. -/
structure BackendOutcome where
  /-- what BuiltInSandbox.launch_in_sandbox returns (a dictionary) -/
  builtinResult : PyVal
  /-- what WindowsSandbox.launch_in_sandbox returns -/
  wsResult : Bool
  /-- subprocess.Popen for Sandboxie raises -/
  sandboxiePopenRaises : Bool
  /-- poll() is not None right after the Sandboxie spawn (stderr text) -/
  sandboxieEarlyExit : Option String
  sandboxiePid : Nat
deriving DecidableEq

def mgrIsSandboxAvailable (st : MgrState) (stype : String) : Bool :=
  st.availableSandboxes.contains stype

/-- SandboxManager._launch_in_sandboxie (lines 224-302).  Note that it
always returns a dictionary, also on failure. -/
def mgrLaunchInSandboxie (env : SysEnv) (st : MgrState) (bo : BackendOutcome)
    (exe name : String) (now : Nat) : PyVal × MgrState :=
  let path := st.sandboxiePath
  if path == "" then
    (.vdict (some false) none none (some "Sandboxie path not configured"), st)
  else if !(pathExists env path) then
    (.vdict (some false) none none (some "Sandboxie executable not found"), st)
  else if bo.sandboxiePopenRaises then
    (.vdict (some false) none none (some "spawn error"), st)
  else
    match bo.sandboxieEarlyExit with
    | some err => (.vdict (some false) none none (some err), st)
    | none =>
      (.vdict (some true) none (some bo.sandboxiePid) none,
       { st with
         sandboxes := mapInsert name
           { stype := "sandboxie", executable := exe, creationTime := none,
             pid := some bo.sandboxiePid, startTime := some now }
           st.sandboxes })

/-- SandboxManager.launch_in_sandbox (lines 150-222).  The unknown-type
and unavailable-type paths return the bare boolean False.  For the
sandboxie branch the result of _launch_in_sandboxie is tested with
Python truthiness: any dictionary, also a failure dictionary, is truthy,
so the registry entry is stored. -/
def mgrLaunchInSandbox (env : SysEnv) (st : MgrState) (bo : BackendOutcome)
    (stype exe name : String) (now : Nat) : PyVal × MgrState :=
  if !(mgrIsSandboxAvailable st stype) then (.vbool false, st)
  else if !(pathExists env exe) then (.vbool false, st)
  else
    let name := if name == "" then "sandbox_" ++ toString now else name
    if stype == "built_in" then
      let result := bo.builtinResult
      let store :=
        match result with
        | .vdict success _ _ _ => success != some false
        | .vbool _ => false
      if store then
        (result, { st with
          sandboxes := mapInsert name
            { stype := "built_in", executable := exe,
              creationTime := some now, pid := none, startTime := none }
            st.sandboxes })
      else (result, st)
    else if stype == "windows_sandbox" then
      if bo.wsResult then
        (.vbool true, { st with
          sandboxes := mapInsert name
            { stype := "windows_sandbox", executable := exe,
              creationTime := some now, pid := none, startTime := none }
            st.sandboxes })
      else (.vbool false, st)
    else if stype == "sandboxie" then
      let (result, st') := mgrLaunchInSandboxie env st bo exe name now
      if pyTruthy result then
        (result, { st' with
          sandboxes := mapInsert name
            { stype := "sandboxie", executable := exe,
              creationTime := some now, pid := none, startTime := none }
            st'.sandboxes })
      else (result, st')
    else if stype == "virtualbox" then
      (.vbool true, { st with
        sandboxes := mapInsert name
          { stype := "virtualbox", executable := exe,
            creationTime := some now, pid := none, startTime := none }
          st.sandboxes })
    else (.vbool false, st)

/-! ## Object-level model of list copying (claim C10)

get_available_sandboxes returns self.available_sandboxes.copy().  To
state that mutating the returned list does not affect the manager, list
objects live in a small heap of reference-indexed cells; the manager
owns availRef, and copy() allocates a fresh cell. -/

structure ListHeap where
  cells : List (Nat × List String)
  next : Nat
deriving DecidableEq

def heapGet (h : ListHeap) (r : Nat) : List String :=
  match h.cells.find? (fun c => c.1 == r) with
  | some c => c.2
  | none => []

/-- An in-place mutation of the list object behind reference r. -/
def heapSet (h : ListHeap) (r : Nat) (v : List String) : ListHeap :=
  { h with cells := (r, v) :: h.cells }

/-- list.copy(): a fresh object with the same contents. -/
def allocCopy (h : ListHeap) (src : Nat) : Nat × ListHeap :=
  (h.next, { cells := (h.next, heapGet h src) :: h.cells, next := h.next + 1 })

/-- SandboxManager.get_available_sandboxes at the object level. -/
def getAvailableSandboxesRef (h : ListHeap) (availRef : Nat) : Nat × ListHeap :=
  allocCopy h availRef

/-- SandboxManager.is_sandbox_available at the object level: a pure read. -/
def isSandboxAvailableRef (h : ListHeap) (availRef : Nat) (t : String) : Bool :=
  (heapGet h availRef).contains t

/-! ## Concrete inputs used by counterexamples, code-bug runs, witnesses -/

def deadPopen : PHandle :=
  { pid := 7, kind := .popen, terminateRaises := false,
    surviveTerminate := false, surviveKill := false, killRaises := false }

def monEnvDead : MonEnv :=
  { alive := fun _ => false, zombie := fun _ => false,
    procWithName := fun _ => none, sandboxRunning := fun _ => false }

/-- One plain-launched game whose raw Popen process is already dead. -/
def c2State : GLState :=
  { games := [("demo", "C:\\Games\\demo.exe")],
    runningGames := [("demo", .rawProc deadPopen)],
    pendingRemovals := [], spawnLog := [] }

/-- A process that survives both terminate (wait times out) and kill. -/
def stubbornPopen : PHandle :=
  { pid := 9, kind := .popen, terminateRaises := false,
    surviveTerminate := true, surviveKill := true, killRaises := false }

def c4State : GLState :=
  { games := [("wyd", "C:\\wyd.exe")],
    runningGames := [("wyd_100_aabbccdd", .info
      { gameId := "wyd", sandbox := some "wyd_100",
        sandboxType := some "built_in", startTime := 100, inSandbox := true,
        terminated := false, endTime := none, process := some stubbornPopen,
        pid := some 9, processInfoPending := false })],
    pendingRemovals := [], spawnLog := [] }

def c6State : GLState :=
  { games := [("g", "C:\\g.exe")], runningGames := [],
    pendingRemovals := [], spawnLog := [] }

def c6FirstCall : Bool × GLState :=
  launchGameInSandbox c6State "g" "built_in" [] 50 "aabbccddeeff0011"
    (.vdict none none (some 3) none)

def c6SecondCall : Bool × GLState :=
  launchGameInSandbox c6FirstCall.2 "g" "built_in" [] 50 "aabbccddeeff0011"
    (.vdict none none (some 4) none)

def c8WitnessState : GLState :=
  { games := [("d", "C:\\d.exe")],
    runningGames := [("d_10_cafebabe", .info
      { gameId := "d", sandbox := some "d_10", sandboxType := some "built_in",
        startTime := 10, inSandbox := true, terminated := false,
        endTime := none, process := none, pid := some 5,
        processInfoPending := false }),
      ("d", .rawProc deadPopen)],
    pendingRemovals := [], spawnLog := [] }

def c5MgrState : MgrState :=
  { availableSandboxes := ["built_in"], sandboxes := [], sandboxiePath := "" }

def c5Env : SysEnv :=
  { sandboxiePathCfg := "", virtualboxPathCfg := "",
    existingPaths := ["C:\\g.exe"], psStdout := "", psRaises := false }

def c5Outcome : BackendOutcome :=
  { builtinResult := .vdict none none none none, wsResult := false,
    sandboxiePopenRaises := false, sandboxieEarlyExit := none,
    sandboxiePid := 0 }

def c9MgrState : MgrState :=
  { availableSandboxes := ["sandboxie", "built_in"], sandboxes := [],
    sandboxiePath := "C:\\SB\\Start.exe" }

def c9Env : SysEnv :=
  { sandboxiePathCfg := "C:\\SB\\Start.exe", virtualboxPathCfg := "",
    existingPaths := ["C:\\SB\\Start.exe", "C:\\g.exe"], psStdout := "",
    psRaises := false }

def c9Outcome : BackendOutcome :=
  { builtinResult := .vdict none none none none, wsResult := false,
    sandboxiePopenRaises := true, sandboxieEarlyExit := none,
    sandboxiePid := 0 }

def c9Run : PyVal × MgrState :=
  mgrLaunchInSandbox c9Env c9MgrState c9Outcome "sandboxie" "C:\\g.exe"
    "box7" 42

def c10Heap : ListHeap := { cells := [(0, ["built_in"])], next := 1 }

/-! # Theorems -/

/-! ## Association-list lemmas -/

theorem mapFind?_insert_self {α : Type} (k : String) (v : α) (l : List (String × α)) :
    mapFind? k (mapInsert k v l) = some v := by
  simp [mapInsert, mapFind?]

theorem mapFind?_filter_ne {α : Type} (k k' : String) (l : List (String × α))
    (h : k' ≠ k) :
    mapFind? k' (l.filter (fun p => p.1 != k)) = mapFind? k' l := by
  induction l with
  | nil => rfl
  | cons p rest ih =>
    obtain ⟨a, b⟩ := p
    by_cases hak : a = k
    · have hk : ((a, b).1 != k) = false := by simp [hak]
      have hak' : a ≠ k' := fun hc => h (hc.symm.trans hak)
      rw [List.filter_cons, hk]
      simp only [Bool.false_eq_true, if_false]
      rw [ih, mapFind?, if_neg hak']
    · have hk : ((a, b).1 != k) = true := by simp [hak]
      rw [List.filter_cons, hk]
      simp only [if_true]
      by_cases hak' : a = k'
      · rw [mapFind?, mapFind?, if_pos hak', if_pos hak']
      · rw [mapFind?, mapFind?, if_neg hak', if_neg hak', ih]

theorem mapFind?_insert_ne {α : Type} (k k' : String) (v : α) (l : List (String × α))
    (h : k' ≠ k) :
    mapFind? k' (mapInsert k v l) = mapFind? k' l := by
  simp only [mapInsert, mapFind?]
  rw [if_neg (fun hc => h hc.symm), mapFind?_filter_ne _ _ _ h]

theorem mapFind?_erase_self {α : Type} (k : String) (l : List (String × α)) :
    mapFind? k (mapErase k l) = none := by
  induction l with
  | nil => rfl
  | cons p rest ih =>
    obtain ⟨a, b⟩ := p
    by_cases hak : a = k
    · have hk : ((a, b).1 != k) = false := by simp [hak]
      unfold mapErase at ih ⊢
      rw [List.filter_cons, hk]
      simpa using ih
    · have hk : ((a, b).1 != k) = true := by simp [hak]
      unfold mapErase at ih ⊢
      rw [List.filter_cons, hk]
      simp only [if_true]
      rw [mapFind?, if_neg hak]
      exact ih

/-! ## Substring lemmas -/

theorem occursIn_iff (n : List Char) (h : List Char) :
    occursIn n h = true ↔ ∃ p s, h = p ++ n ++ s := by
  induction h with
  | nil =>
    simp only [occursIn, List.isEmpty_iff]
    constructor
    · intro hn; exact ⟨[], [], by simp [hn]⟩
    · rintro ⟨p, s, hps⟩
      rcases List.append_eq_nil.mp (List.append_eq_nil.mp hps.symm).1 with ⟨_, hn⟩
      exact hn
  | cons c rest ih =>
    simp only [occursIn, Bool.or_eq_true]
    constructor
    · rintro (hpre | hocc)
      · rcases List.isPrefixOf_iff_prefix.mp hpre with ⟨s, hs⟩
        exact ⟨[], s, by simp [hs.symm]⟩
      · rcases ih.mp hocc with ⟨p, s, hps⟩
        exact ⟨c :: p, s, by simp [hps]⟩
    · rintro ⟨p, s, hps⟩
      cases p with
      | nil =>
        left
        exact List.isPrefixOf_iff_prefix.mpr ⟨s, by simpa using hps.symm⟩
      | cons d p' =>
        right
        apply ih.mpr
        refine ⟨p', s, ?_⟩
        have := hps
        simp only [List.cons_append] at this
        exact (List.cons.injEq _ _ _ _ ▸ this).2

theorem containsSubstr_of_part {n₁ n₂ : String}
    (hpart : ∃ p s, n₂.data = p ++ n₁.data ++ s) (hay : String)
    (h : containsSubstr n₂ hay = true) : containsSubstr n₁ hay = true := by
  rcases hpart with ⟨p, s, hps⟩
  rcases (occursIn_iff _ _).mp h with ⟨p', s', hps'⟩
  apply (occursIn_iff _ _).mpr
  exact ⟨p' ++ p, s ++ s', by simp [hps', hps]⟩

/-! ## Backend discovery theorems -/

theorem wsBackend_implies_managerCheck (env : SysEnv)
    (h : wsBackendIsAvailable env = true) : managerWSFeatureCheck env = true := by
  unfold wsBackendIsAvailable at h
  rcases Bool.and_eq_true_iff.mp h with ⟨-, h2⟩
  rcases Bool.and_eq_true_iff.mp h2 with ⟨hnr, hsub⟩
  unfold managerWSFeatureCheck
  rw [hnr, Bool.true_and]
  refine containsSubstr_of_part ⟨"State : ".data, [], ?_⟩ env.psStdout hsub
  rfl

/-! ## BuiltInSandbox lemmas -/

theorem listIsPrefixOf_refl (l : List Char) : l.isPrefixOf l = true := by
  induction l with
  | nil => rfl
  | cons a t ih => simp [List.isPrefixOf, ih]

theorem not_mem_removeTree (d : String) (fs : List String) :
    d ∉ removeTree d fs := by
  intro hmem
  have := (List.mem_filter.mp hmem).2
  rw [listIsPrefixOf_refl] at this
  simp at this

theorem ensureSandbox_isSome (env : BIEnv) (s : BIState) (name : String)
    (now : Nat) :
    (mapFind? name (ensureSandbox env s name now).sandboxes).isSome = true := by
  unfold ensureSandbox
  by_cases h : (mapFind? name s.sandboxes).isSome = true
  · rw [if_pos h]; exact h
  · rw [if_neg h]
    unfold biCreateSandbox
    simp [mapFind?_insert_self]

theorem biLaunch_fields (env : BIEnv) (s : BIState) (name exe : String)
    (args : List String) (now batchPid : Nat) (fg : Option Nat)
    (r : BISandboxRec)
    (h : mapFind? name (ensureSandbox env s name now).sandboxes = some r) :
    (biLaunchInSandbox env s name exe args now batchPid fg).1.identity.hwid
        = r.hwid ∧
    (biLaunchInSandbox env s name exe args now batchPid fg).1.identity.mac
        = r.mac ∧
    (biLaunchInSandbox env s name exe args now batchPid fg).1.identity.computerName
        = r.computerName ∧
    ∃ r', mapFind? name
        (biLaunchInSandbox env s name exe args now batchPid fg).2.sandboxes
          = some r' ∧
      r'.hwid = r.hwid ∧ r'.mac = r.mac ∧ r'.computerName = r.computerName := by
  unfold biLaunchInSandbox
  rw [h]
  unfold biLaunchBody extendIdentity
  refine ⟨rfl, rfl, rfl, ⟨_, mapFind?_insert_self _ _ _, rfl, rfl, rfl⟩⟩

/-- C1, counterexample: in an environment where the OS optional feature
reports enabled but the WindowsSandbox.exe binary is absent,
windows_sandbox still appears in the available list (the manager probe
only checks the feature), so the claimed iff is false. -/
theorem c1_counterexample :
    ¬ ("windows_sandbox" ∈ availableSandboxes envFeatureNoBinary ↔
       (pathExists envFeatureNoBinary windowsSandboxExePath = true ∧
        wsFeatureEnabled envFeatureNoBinary = true)) := by
  decide

/-- C1, amended: get_available_sandbox_types always contains built_in,
and contains windows_sandbox iff the manager feature probe succeeds
(PowerShell output contains "Enabled"); the presence of the host binary
is not required, it only leads to a duplicated entry when both probes
succeed. -/
theorem c1_available_types (env : SysEnv) :
    "built_in" ∈ availableSandboxes env ∧
      ("windows_sandbox" ∈ availableSandboxes env ↔
        managerWSFeatureCheck env = true) := by
  constructor
  · simp [availableSandboxes]
  · by_cases hm : managerWSFeatureCheck env = true
    · simp [availableSandboxes, hm]
    · rw [Bool.not_eq_true] at hm
      have hw : wsBackendIsAvailable env = false := by
        cases hwb : wsBackendIsAvailable env
        · rfl
        · exact absurd (wsBackend_implies_managerCheck env hwb)
            (by simp [hm])
      by_cases hs : isSandboxieAvailable env = true <;>
        by_cases hv : isVirtualboxAvailable env = true <;>
        simp_all [availableSandboxes]

/-- C2: failing-input run.  One plain-launched game (running_games holds
the raw Popen object) whose process has been killed externally: the
monitor pass leaves the state completely unchanged (the per-entry body
raises at game_info.get and the exception is swallowed), the delayed
removals never fire because none were scheduled, and the instance id is
still reported by get_running_games long after poll interval plus grace
delay have elapsed. -/
theorem c2_plain_instance_never_removed :
    updateRunningGames monEnvDead c2State 100 = c2State ∧
    fireDueRemovals c2State 200 = c2State ∧
    "demo" ∈ (getRunningGames monEnvDead c2State 200).1 := by
  decide

/-- C3, counterexample: two launches under the same sandbox name without
an intervening terminate_sandbox share hwid but get different extended
fields (ip and synthetic user name shown), because launch_in_sandbox
draws fresh extended identifiers on every call. -/
theorem c3_counterexample :
    c3FirstLaunch.1.identity.hwid = c3SecondLaunch.1.identity.hwid ∧
    c3FirstLaunch.1.identity.ipAddress ≠ c3SecondLaunch.1.identity.ipAddress ∧
    c3FirstLaunch.1.identity.userName ≠ c3SecondLaunch.1.identity.userName := by
  decide

/-- C3, amended: across two launches under the same sandbox name without
an intervening terminate_sandbox, the core identity fields hwid, mac and
computer_name are reused verbatim; the extended fields (ip, disk, bios,
motherboard and cpu serials, synthetic user name) are regenerated fresh
on every launch and are not part of the stable identity. -/
theorem c3_core_identity_stable (env : BIEnv) (s : BIState)
    (name exe exe2 : String) (args args2 : List String)
    (now now2 batchPid batchPid2 : Nat) (fg fg2 : Option Nat) :
    (biLaunchInSandbox env s name exe args now batchPid fg).1.identity.hwid
      = (biLaunchInSandbox env
          (biLaunchInSandbox env s name exe args now batchPid fg).2
          name exe2 args2 now2 batchPid2 fg2).1.identity.hwid ∧
    (biLaunchInSandbox env s name exe args now batchPid fg).1.identity.mac
      = (biLaunchInSandbox env
          (biLaunchInSandbox env s name exe args now batchPid fg).2
          name exe2 args2 now2 batchPid2 fg2).1.identity.mac ∧
    (biLaunchInSandbox env s name exe args now batchPid fg).1.identity.computerName
      = (biLaunchInSandbox env
          (biLaunchInSandbox env s name exe args now batchPid fg).2
          name exe2 args2 now2 batchPid2 fg2).1.identity.computerName := by
  obtain ⟨r, hr⟩ :=
    Option.isSome_iff_exists.mp (ensureSandbox_isSome env s name now)
  obtain ⟨e1, e2, e3, r', hr', f1, f2, f3⟩ :=
    biLaunch_fields env s name exe args now batchPid fg r hr
  have hens2 : ensureSandbox env
      (biLaunchInSandbox env s name exe args now batchPid fg).2 name now2
      = (biLaunchInSandbox env s name exe args now batchPid fg).2 := by
    unfold ensureSandbox
    rw [if_pos (by rw [hr']; rfl)]
  obtain ⟨g1, g2, g3, -⟩ :=
    biLaunch_fields env
      (biLaunchInSandbox env s name exe args now batchPid fg).2
      name exe2 args2 now2 batchPid2 fg2 r' (by rw [hens2]; exact hr')
  exact ⟨by rw [e1, g1, f1], by rw [e2, g2, f2], by rw [e3, g3, f3]⟩

/-- C4: failing-input run.  A sandboxed instance record whose process
survives both the graceful terminate (the bounded wait times out) and
the forced kill: terminate_game nevertheless returns True and removes
the record from running_games, because the computed terminated flag is
never consulted before the unconditional mark-and-delete. -/
theorem c4_survivor_still_removed :
    (terminateGame c4State "wyd_100_aabbccdd" 200).1 = true ∧
    mapFind? "wyd_100_aabbccdd"
      (terminateGame c4State "wyd_100_aabbccdd" 200).2.runningGames = none := by
  decide

/-- C7: after terminate_sandbox on an existing sandbox, the call returns
True, a subsequent health check reports not_found (hence not_found or
stopped), and the recorded per-sandbox temp directory no longer exists
on the filesystem. -/
theorem c7_terminate_converges (s : BIState) (name : String)
    (pa : Nat → Bool) (now : Nat) (d : String)
    (h : (mapFind? name s.sandboxes).isSome = true)
    (hd : tempDirOf s name = some d) :
    (biTerminateSandbox s name).1 = true ∧
    ((biCheckHealth (biTerminateSandbox s name).2 name pa now).status
        = "not_found" ∨
     (biCheckHealth (biTerminateSandbox s name).2 name pa now).status
        = "stopped") ∧
    d ∉ (biTerminateSandbox s name).2.fs := by
  obtain ⟨r, hr⟩ := Option.isSome_iff_exists.mp h
  have hrd : r.tempDir = some d := by
    unfold tempDirOf at hd
    rw [hr] at hd
    exact hd
  unfold biTerminateSandbox
  rw [hr]
  simp only [hrd]
  refine ⟨trivial, ?_, ?_⟩
  · left
    unfold biCheckHealth
    rw [show mapFind? name (mapErase name s.sandboxes) = none from
      mapFind?_erase_self _ _]
  · exact not_mem_removeTree d s.fs

/-- C7, witness: a concrete launched sandbox named wit, terminated. -/
theorem c7_witness :
    ((mapFind? "wit" c7WitnessState.sandboxes).isSome = true ∧
     tempDirOf c7WitnessState "wit" = some "C:\\Temp\\wydbot_identity_wit_r0") ∧
    ((biTerminateSandbox c7WitnessState "wit").1 = true ∧
     ((biCheckHealth (biTerminateSandbox c7WitnessState "wit").2 "wit"
         (fun _ => false) 10).status = "not_found" ∨
      (biCheckHealth (biTerminateSandbox c7WitnessState "wit").2 "wit"
         (fun _ => false) 10).status = "stopped") ∧
     "C:\\Temp\\wydbot_identity_wit_r0" ∉
       (biTerminateSandbox c7WitnessState "wit").2.fs) :=
  ⟨⟨by decide, by decide⟩,
   c7_terminate_converges c7WitnessState "wit" (fun _ => false) 10
     "C:\\Temp\\wydbot_identity_wit_r0" (by decide) (by decide)⟩

/-- C6, counterexample: two rapid successful launch_game_in_sandbox
calls in the same second whose uuid4 draws coincide mint the same
instance_id: both calls return True, yet running_games ends with a
single entry because the second insert lands on the same key, so the
minted ids are not pairwise distinct. -/
theorem c6_counterexample :
    c6FirstCall.1 = true ∧ c6SecondCall.1 = true ∧
    c6SecondCall.2.runningGames.length = 1 := by
  decide

/-- C6, amended: every successful call records an instance_id of the
form game_id, underscore, unix timestamp, underscore, the first 8
characters of the uuid4 hex; two ids minted for the same game in the
same second coincide exactly when those 8-character random suffixes
coincide, so pairwise distinctness holds precisely when the random draws
differ, which the code does not enforce. -/
theorem c6_format_and_collision (g : String) (now : Nat) (u u₁ u₂ : String) :
    mintInstanceId g now u = g ++ "_" ++ toString now ++ "_" ++ u.take 8 ∧
    (mintInstanceId g now u₁ = mintInstanceId g now u₂ ↔
      u₁.take 8 = u₂.take 8) := by
  refine ⟨rfl, ?_, ?_⟩
  · intro h
    have hd := congrArg String.data h
    unfold mintInstanceId at hd
    rw [String.data_append, String.data_append, String.data_append,
        String.data_append, String.data_append, String.data_append,
        String.data_append, String.data_append] at hd
    exact String.ext (List.append_cancel_left hd)
  · intro h
    rw [mintInstanceId, mintInstanceId, h]

/-- C8: when any instance keyed by the game id is active, launch_game
returns False with the service state unchanged (no process spawned,
nothing logged); launch_game_in_sandbox, by contrast, consults no
duplicate guard: for a registered game and a truthy non-failure backend
result it returns True and stores a record under a freshly minted
instance id, even while another instance of the same game is active. -/
theorem c8_duplicate_guard (s : GLState) (gid stype : String)
    (args args2 : List String) (spawnOk : Bool) (h : PHandle) (now : Nat)
    (u : String) (res : PyVal)
    (hactive : (mapFind? gid s.runningGames).isSome = true)
    (hreg : (mapFind? gid s.games).isSome = true)
    (htr : pyTruthy res = true) (hnf : pyIsFailure res = false) :
    launchGame s gid args spawnOk h = (false, s) ∧
    (launchGameInSandbox s gid stype args2 now u res).1 = true ∧
    (mapFind? (mintInstanceId gid now u)
      (launchGameInSandbox s gid stype args2 now u res).2.runningGames).isSome
        = true := by
  obtain ⟨path, hpath⟩ := Option.isSome_iff_exists.mp hreg
  have hmain : (launchGameInSandbox s gid stype args2 now u res).1 = true ∧
      (mapFind? (mintInstanceId gid now u)
        (launchGameInSandbox s gid stype args2 now u res).2.runningGames).isSome
          = true := by
    cases res with
    | vbool b =>
      have hb : b = true := by simpa [pyTruthy] using htr
      subst hb
      unfold launchGameInSandbox
      rw [hpath]
      simp [pyTruthy, mapFind?_insert_self]
    | vdict s4 p q e =>
      have hs4 : (s4 == some false) = false := by
        simpa [pyIsFailure] using hnf
      unfold launchGameInSandbox
      rw [hpath]
      simp [pyTruthy, hs4, mapFind?_insert_self]
  refine ⟨?_, hmain.1, hmain.2⟩
  unfold launchGame
  simp only [hpath]
  rw [if_pos hactive]

/-- C8, witness: a state with a registered game d that has both a plain
and a sandboxed instance active; a further sandboxed launch succeeds
while a plain launch is rejected. -/
theorem c8_witness :
    ((mapFind? "d" c8WitnessState.runningGames).isSome = true ∧
     (mapFind? "d" c8WitnessState.games).isSome = true ∧
     pyTruthy (PyVal.vbool true) = true ∧
     pyIsFailure (PyVal.vbool true) = false) ∧
    (launchGame c8WitnessState "d" [] true deadPopen = (false, c8WitnessState) ∧
     (launchGameInSandbox c8WitnessState "d" "built_in" [] 11 "deadbeef"
        (PyVal.vbool true)).1 = true ∧
     (mapFind? (mintInstanceId "d" 11 "deadbeef")
       (launchGameInSandbox c8WitnessState "d" "built_in" [] 11 "deadbeef"
          (PyVal.vbool true)).2.runningGames).isSome = true) :=
  ⟨⟨by decide, by decide, by decide, by decide⟩,
   c8_duplicate_guard c8WitnessState "d" "built_in" [] [] true deadPopen 11
     "deadbeef" (PyVal.vbool true) (by decide) (by decide) (by decide)
     (by decide)⟩

/-- C5, counterexample: for an unknown backend tag (bogus) and for a
known tag that is currently unavailable (sandboxie absent from the
available list), launch_in_sandbox returns the bare boolean False, not a
dictionary: the returned value names neither the requested type nor the
available alternatives, so the claim about a structured failure value is
false at these inputs. -/
theorem c5_counterexample :
    mgrLaunchInSandbox c5Env c5MgrState c5Outcome "bogus" "C:\\g.exe" "nm" 7
      = (.vbool false, c5MgrState) ∧
    pyIsDict (mgrLaunchInSandbox c5Env c5MgrState c5Outcome "bogus"
      "C:\\g.exe" "nm" 7).1 = false ∧
    mgrLaunchInSandbox c5Env c5MgrState c5Outcome "sandboxie" "C:\\g.exe"
      "nm" 7 = (.vbool false, c5MgrState) ∧
    pyIsDict (mgrLaunchInSandbox c5Env c5MgrState c5Outcome "sandboxie"
      "C:\\g.exe" "nm" 7).1 = false := by
  decide

/-- C5, amended: an unknown backend tag and a known-but-unavailable
backend both make launch_in_sandbox return the plain boolean False
without raising and without touching the registry; the requested type
and the available alternatives appear only in the log message, not in
the returned value. -/
theorem c5_unavailable_returns_false (env : SysEnv) (st : MgrState)
    (bo : BackendOutcome) (stype exe name : String) (now : Nat)
    (h : mgrIsSandboxAvailable st stype = false) :
    mgrLaunchInSandbox env st bo stype exe name now = (.vbool false, st) := by
  unfold mgrLaunchInSandbox
  rw [h]
  simp

/-- C5, witness: a concrete unavailable tag. -/
theorem c5_witness :
    mgrIsSandboxAvailable c5MgrState "bogus2" = false ∧
    mgrLaunchInSandbox c5Env c5MgrState c5Outcome "bogus2" "C:\\g.exe"
      "nm" 7 = (.vbool false, c5MgrState) :=
  ⟨by decide,
   c5_unavailable_returns_false c5Env c5MgrState c5Outcome "bogus2"
     "C:\\g.exe" "nm" 7 (by decide)⟩

/-- C9, counterexample: with sandboxie available but its spawn raising,
launch_in_sandbox returns a failure dictionary, yet an entry under the
requested name is added to the manager registry, because the failure
dictionary is truthy. -/
theorem c9_counterexample :
    pyIsFailure c9Run.1 = true ∧
    mapFind? "box7" c9MgrState.sandboxes = none ∧
    (mapFind? "box7" c9Run.2.sandboxes).isSome = true := by
  decide

/-- C9, amended: whenever launch_in_sandbox returns a failure (False, or
a dictionary with success False), the manager registry is unchanged,
except for the sandboxie branch: there the failure dictionary is truthy,
so an entry for the requested name is stored anyway. -/
theorem c9_failure_registry (env : SysEnv) (st : MgrState)
    (bo : BackendOutcome) (stype exe name : String) (now : Nat)
    (hname : name ≠ "")
    (hfail : pyIsFailure (mgrLaunchInSandbox env st bo stype exe name now).1
      = true) :
    (mgrLaunchInSandbox env st bo stype exe name now).2 = st ∨
    (stype = "sandboxie" ∧
      (mgrLaunchInSandbox env st bo stype exe name now).2 = { st with
        sandboxes := mapInsert name
          { stype := "sandboxie", executable := exe, creationTime := some now,
            pid := none, startTime := none } st.sandboxes }) := by
  have hne : (name == "") = false := beq_eq_false_iff_ne.mpr hname
  by_cases h1 : mgrIsSandboxAvailable st stype = true
  · by_cases h2 : pathExists env exe = true
    · by_cases h3 : stype = "built_in"
      · subst h3
        cases hb : bo.builtinResult with
        | vbool b =>
          left
          simp [mgrLaunchInSandbox, h1, h2, hne, hb]
        | vdict s4 p q e =>
          by_cases hs4 : s4 = some false
          · left
            simp [mgrLaunchInSandbox, h1, h2, hne, hb, hs4]
          · exfalso
            simp [mgrLaunchInSandbox, h1, h2, hne, hb, hs4, pyIsFailure]
              at hfail
      · by_cases h4 : stype = "windows_sandbox"
        · subst h4
          cases hw : bo.wsResult
          · left
            simp [mgrLaunchInSandbox, h1, h2, hne, hw]
          · exfalso
            simp [mgrLaunchInSandbox, h1, h2, hne, hw, pyIsFailure] at hfail
        · by_cases h5 : stype = "sandboxie"
          · subst h5
            right
            refine ⟨rfl, ?_⟩
            by_cases p1 : (st.sandboxiePath == "") = true
            · simp [mgrLaunchInSandbox, mgrLaunchInSandboxie, h1, h2, hne,
                p1, pyTruthy]
            · by_cases p2 : pathExists env st.sandboxiePath = true
              · by_cases p3 : bo.sandboxiePopenRaises = true
                · simp [mgrLaunchInSandbox, mgrLaunchInSandboxie, h1, h2,
                    hne, p1, p2, p3, pyTruthy]
                · cases p4 : bo.sandboxieEarlyExit with
                  | some err =>
                    simp [mgrLaunchInSandbox, mgrLaunchInSandboxie, h1, h2,
                      hne, p1, p2, p3, p4, pyTruthy]
                  | none =>
                    exfalso
                    simp [mgrLaunchInSandbox, mgrLaunchInSandboxie, h1, h2,
                      hne, p1, p2, p3, p4, pyTruthy, pyIsFailure] at hfail
              · simp [mgrLaunchInSandbox, mgrLaunchInSandboxie, h1, h2, hne,
                  p1, p2, pyTruthy]
          · by_cases h6 : stype = "virtualbox"
            · subst h6
              exfalso
              simp [mgrLaunchInSandbox, h1, h2, hne, pyIsFailure] at hfail
            · left
              simp [mgrLaunchInSandbox, h1, h2, hne, h3, h4, h5, h6]
    · left
      simp only [Bool.not_eq_true] at h2
      simp [mgrLaunchInSandbox, h1, h2]
  · left
    simp only [Bool.not_eq_true] at h1
    simp [mgrLaunchInSandbox, h1]

/-- C9, witness: the concrete sandboxie failure, fed through the amended
theorem. -/
theorem c9_witness :
    ("box8" ≠ "" ∧
     pyIsFailure (mgrLaunchInSandbox c9Env c9MgrState c9Outcome "sandboxie"
       "C:\\g.exe" "box8" 42).1 = true) ∧
    ((mgrLaunchInSandbox c9Env c9MgrState c9Outcome "sandboxie"
        "C:\\g.exe" "box8" 42).2 = c9MgrState ∨
     ("sandboxie" = "sandboxie" ∧
      (mgrLaunchInSandbox c9Env c9MgrState c9Outcome "sandboxie"
        "C:\\g.exe" "box8" 42).2 = { c9MgrState with
          sandboxes := mapInsert "box8"
            { stype := "sandboxie", executable := "C:\\g.exe",
              creationTime := some 42, pid := none, startTime := none }
            c9MgrState.sandboxes })) :=
  ⟨⟨by decide, by decide⟩,
   c9_failure_registry c9Env c9MgrState c9Outcome "sandboxie" "C:\\g.exe"
     "box8" 42 (by decide) (by decide)⟩

/-- C10: get_available_sandboxes returns a fresh copy of the internal
availability list: the returned object holds the same contents, the
internal list is untouched by the call, and after mutating the returned
object both the internal contents, is_sandbox_available and any later
get_available_sandboxes call still see the original contents. -/
theorem c10_copy_semantics (h : ListHeap) (availRef : Nat)
    (newContents : List String) (t : String) (wf : availRef < h.next) :
    heapGet (getAvailableSandboxesRef h availRef).2
        (getAvailableSandboxesRef h availRef).1 = heapGet h availRef ∧
    heapGet (getAvailableSandboxesRef h availRef).2 availRef
        = heapGet h availRef ∧
    heapGet (heapSet (getAvailableSandboxesRef h availRef).2
        (getAvailableSandboxesRef h availRef).1 newContents) availRef
        = heapGet h availRef ∧
    isSandboxAvailableRef (heapSet (getAvailableSandboxesRef h availRef).2
        (getAvailableSandboxesRef h availRef).1 newContents) availRef t
        = isSandboxAvailableRef h availRef t ∧
    heapGet
      (getAvailableSandboxesRef (heapSet
        (getAvailableSandboxesRef h availRef).2
        (getAvailableSandboxesRef h availRef).1 newContents) availRef).2
      (getAvailableSandboxesRef (heapSet
        (getAvailableSandboxesRef h availRef).2
        (getAvailableSandboxesRef h availRef).1 newContents) availRef).1
        = heapGet h availRef := by
  have e1 : (h.next == availRef) = false :=
    beq_eq_false_iff_ne.mpr (fun hc => absurd (hc ▸ wf) (lt_irrefl _))
  have e2 : (h.next + 1 == availRef) = false :=
    beq_eq_false_iff_ne.mpr (by omega)
  refine ⟨?_, ?_, ?_, ?_, ?_⟩ <;>
    simp [getAvailableSandboxesRef, allocCopy, heapGet, heapSet,
      isSandboxAvailableRef, List.find?, e1, e2]

/-- C10, witness: the one-cell heap holding the availability list. -/
theorem c10_witness :
    0 < c10Heap.next ∧
    heapGet (heapSet (getAvailableSandboxesRef c10Heap 0).2
      (getAvailableSandboxesRef c10Heap 0).1 []) 0 = heapGet c10Heap 0 :=
  ⟨by decide, (c10_copy_semantics c10Heap 0 [] "built_in" (by decide)).2.2.1⟩

end WydSandbox
